import Mathlib

/-!
Shallow embedding of `src/qa_automation.py` (AI-Powered Cypress end-to-end
test automation script) and verification of the frozen claims about it.

Python strings are modelled as Lean `String` (a list of Unicode code points,
matching Python's code-point indexing and slicing).  Python's `in` substring
test is modelled by `strContains`, `str.lower` by `String.toLower`, and
`s[:200]` by taking the first 200 code points of the string.  Fallible
external calls (HTTP fetch, LLM invocation, subprocess execution) are
modelled by passing the call's outcome as an explicit `Except`/inductive
argument; the surrounding Python `try`/`except` dispatch is embedded as a
total Lean function on that outcome.
-/

/-- Python's `needle in hay` substring test (case-sensitive, code points). -/
def strContains (hay needle : String) : Bool :=
  hay.data.tails.any (fun t => needle.data.isPrefixOf t)

/-- Python's `s[:n]` slice: the first `n` code points of `s`. -/
def pySlice (s : String) (n : Nat) : String :=
  ⟨s.data.take n⟩

/-- Python's `str.lower`, modelled pointwise via `Char.toLower` (the keyword
vocabulary of the classifier is ASCII, where the two agree). -/
def pyLower (s : String) : String :=
  ⟨s.data.map Char.toLower⟩

-- Return strings of `analyze_error` (src/qa_automation.py lines 44-66).

/-- Line 45: returned when `error_text` is falsy (None or empty). -/
def noOutputMsg : String :=
  "🤔 NO ERROR OUTPUT → Check if Cypress is installed and configured properly"

/-- Line 50: cypress-verification category. -/
def cypressInstallMsg : String :=
  "🔧 CYPRESS INSTALL ISSUE → Run \x27npx cypress install\x27 or \x27npx cypress verify\x27"

/-- Line 52: element-not-found category. -/
def elementNotFoundMsg : String :=
  "🔍 ELEMENT NOT FOUND → Check CSS selectors or add cy.wait() for dynamic content"

/-- Line 54: timeout category. -/
def timeoutMsg : String :=
  "⏰ TIMEOUT ERROR → Increase timeout with cy.get(selector, \x7btimeout: 10000\x7d) or add cy.wait()"

/-- Line 56: visibility/actionability category. -/
def notVisibleMsg : String :=
  "👁️ ELEMENT NOT VISIBLE → Add cy.scrollIntoView() or check if element is hidden/covered"

/-- Line 58: assertion category. -/
def assertionMsg : String :=
  "❌ ASSERTION FAILED → Check expected values, text content, or element states"

/-- Line 60: network category. -/
def networkMsg : String :=
  "🌐 NETWORK ISSUE → Check internet connection or add network stubbing"

/-- Line 62: configuration category. -/
def cypressConfigMsg : String :=
  "⚙️ CYPRESS CONFIG → Check cypress.config.js and baseUrl settings"

/-- Line 64: encoding category. -/
def encodingMsg : String :=
  "🔤 ENCODING ISSUE → Fixed in script - should work now"

/-- Line 66: the fixed prefix of the unknown-error message. -/
def unknownPrefix : String :=
  "🤔 UNKNOWN ERROR → Check Cypress dashboard or run: npx cypress open\nError snippet: "

/-- Line 66: the unknown-category message, embedding `error_text[:200]`. -/
def unknownMsg (error_text : String) : String :=
  unknownPrefix ++ pySlice error_text 200 ++ "..."

/--
Embedding of `analyze_error` (src/qa_automation.py lines 42-66).  The Python parameter
`error_text` may be `None`, modelled by `Option String`; `if not error_text`
is true exactly for `None` and the empty string.
-/
def analyze_error (error_text : Option String) : String :=
  match error_text with
  | none => noOutputMsg
  | some t =>
    if t = "" then noOutputMsg
    else
      let error := pyLower t
      if strContains error "cypress could not verify" ||
         strContains error "cypress verification" then cypressInstallMsg
      else if strContains error "not found" &&
              (strContains error "element" || strContains error "selector") then
        elementNotFoundMsg
      else if strContains error "timed out" || strContains error "timeout" then
        timeoutMsg
      else if strContains error "not visible" || strContains error "not actionable" then
        notVisibleMsg
      else if strContains error "expected" || strContains error "assertion" then
        assertionMsg
      else if strContains error "network" || strContains error "fetch" then
        networkMsg
      else if strContains error "cypress run" then
        cypressConfigMsg
      else if strContains error "unicode" || strContains error "encoding" then
        encodingMsg
      else
        unknownMsg t

/-- Specification-side helper: does the (lowered) input text match at least
one of the eight keyword categories of `analyze_error`?  This is the exact
disjunction of the eight branch conditions of lines 49-64. -/
def matchesAnyCategory (t : String) : Bool :=
  let error := pyLower t
  (strContains error "cypress could not verify" ||
     strContains error "cypress verification") ||
  (strContains error "not found" &&
     (strContains error "element" || strContains error "selector")) ||
  (strContains error "timed out" || strContains error "timeout") ||
  (strContains error "not visible" || strContains error "not actionable") ||
  (strContains error "expected" || strContains error "assertion") ||
  (strContains error "network" || strContains error "fetch") ||
  strContains error "cypress run" ||
  (strContains error "unicode" || strContains error "encoding")

/-!
ADF (Atlassian Document Format) rich-text values, as consumed by
`extract_text_from_adf` (src/qa_automation.py lines 103-118).  A JSON value
there is a dict (with the keys `type`, `text`, `content` relevant to the
walk), a list, or a scalar (ignored by the walk).  A present `content` key
holds a JSON array of child nodes.  Arrays are represented as `nil`/`cons`
spines of the same inductive so that every traversal below is plain
structural recursion.
-/

inductive AdfNode where
| obj (typ : Option String) (text : Option String) (content : Option AdfNode)
| nil
| cons (head : AdfNode) (tail : AdfNode)
| scalar

/-- A dict-rooted ADF value: what `isinstance(description, dict)` selects on
line 90 before `extract_text_from_adf` is called.  The `content` field, when
present, holds the JSON array of child nodes. -/
structure AdfDoc where
  typ : Option String
  text : Option String
  content : Option AdfNode

/-- View a dict-rooted document as a node of the tree. -/
def AdfDoc.toNode (d : AdfDoc) : AdfNode :=
  .obj d.typ d.text d.content

/--
The inner closure `extract_text` (lines 107-113): a dict of type `"text"`
pushes its `text` value (defaulting to `""`) onto the shared `text_parts`
accumulator; otherwise a dict with a `content` key recurses into its list
of children; a list recurses into its items in order; anything else is
ignored.
-/
def extract_text : AdfNode → List String → List String
| .obj typ text content, text_parts =>
  if typ = some "text" then text_parts ++ [text.getD ""]
  else match content with
    | some children => extract_text children text_parts
    | none => text_parts
| .nil, text_parts => text_parts
| .cons c cs, text_parts => extract_text cs (extract_text c text_parts)
| .scalar, text_parts => text_parts

/--
Embedding of `extract_text_from_adf` (lines 103-118) on a dict argument:
walk the tree accumulating `text_parts`, then return
`" ".join(text_parts)`.  (The function's non-dict branch,
`str(adf_content)` on line 105, is unreachable from
`fetch_jira_requirements`, which only calls it on a dict.)
-/
def extract_text_from_adf (adf_content : AdfDoc) : String :=
  String.intercalate " " (extract_text adf_content.toNode [])

/-- Specification-side description of the walk: the literal-text fragments
of the document in depth-first, left-to-right document order. -/
def textFragments : AdfNode → List String
| .obj typ text content =>
  if typ = some "text" then [text.getD ""]
  else match content with
    | some children => textFragments children
    | none => []
| .nil => []
| .cons c cs => textFragments c ++ textFragments cs
| .scalar => []

/-- Specification-side count of all literal text nodes (dicts whose `type`
is `"text"`) anywhere in the tree. -/
def countTextNodes : AdfNode → Nat
| .obj typ _ content =>
  (if typ = some "text" then 1 else 0) +
  (match content with
   | some children => countTextNodes children
   | none => 0)
| .nil => 0
| .cons c cs => countTextNodes c + countTextNodes cs
| .scalar => 0

/-- Well-formed ADF: a node of type `"text"` is a leaf (it carries no
`content` key), as in the ADF schema; nothing else is constrained. -/
def wfAdf : AdfNode → Bool
| .obj _ _ none => true
| .obj typ _ (some children) => (typ != some "text") && wfAdf children
| .nil => true
| .cons c cs => wfAdf c && wfAdf cs
| .scalar => true

/-- A well-formed document: its root node is well-formed. -/
def AdfDoc.wf (d : AdfDoc) : Bool :=
  wfAdf d.toNode

/-!
Pipeline state and stages.  `QAState` (lines 69-71) declares exactly two
fields, `requirements` and `test_code`, both defaulting to `""`.  The two
fallible external calls — the HTTP GET of lines 79-86 and the model call of
line 178 — are modelled by an `Except` argument carrying either the parsed
success value or the stringified exception (`str(e)`); `requests`
transport-level failures (DNS, TLS, non-2xx via `raise_for_status`,
timeout) are all `requests.exceptions.RequestException`s and hence all
reach the `except` arm of lines 98-101.
-/

structure QAState where
  requirements : String := ""
  test_code : String := ""
deriving DecidableEq

/-- The `description` value of the fetched issue's `fields`: absent (JSON
null / missing key), a plain string, or a dict-rooted rich-text document. -/
inductive DescriptionField where
| absent
| str (s : String)
| adf (d : AdfDoc)

/-- The fields of the fetched Jira issue consumed by the script:
`fields.description` and `fields.summary` (defaulting to `""`). -/
structure JiraIssue where
  description : DescriptionField
  summary : String

/--
Embedding of `fetch_jira_requirements` (lines 74-101).  On a successful response the
requirement is the description — flattened by `extract_text_from_adf` when
it is a dict — with Python's `or summary` fallback kicking in when that
value is falsy (empty); on a `RequestException` with message `e` the
requirement becomes the diagnostic `f"Error fetching requirements: {e}"`
and the state is still returned.
-/
def fetch_jira_requirements (response : Except String JiraIssue)
    (state : QAState) : QAState :=
  match response with
  | .ok issue =>
    match issue.description with
    | .adf d =>
      let flat := extract_text_from_adf d
      { state with requirements := if flat = "" then issue.summary else flat }
    | .str s =>
      { state with requirements := if s = "" then issue.summary else s }
    | .absent =>
      { state with requirements := issue.summary }
  | .error e =>
    { state with requirements := "Error fetching requirements: " ++ e }

/--
Embedding of `generate_cypress_tests` (lines 153-185).  On a successful model call the
response content becomes `state["test_code"]`; on any exception with
message `e` the fallback comment `f"// Error generating tests: {e}"` is
stored instead, and the state is still returned.
-/
def generate_cypress_tests (llmResponse : Except String String)
    (state : QAState) : QAState :=
  match llmResponse with
  | .ok content => { state with test_code := content }
  | .error e => { state with test_code := "// Error generating tests: " ++ e }

/-!
The run/except dispatch of `save_test_code` (lines 201-244).  The outcome
of spawning the runner, draining its output and calling
`process.wait(timeout=300)` is one of: a normal exit with a return code, a
`subprocess.TimeoutExpired`, a `FileNotFoundError` from the missing `npx`
executable, or some other exception.  The embedding maps each outcome to
the primary message printed and whether `process.kill()` was invoked.
-/

/-- The `timeout=300` argument of `process.wait` on line 225. -/
def cypressWaitTimeoutSeconds : Nat := 300

/-- Line 228: printed on return code zero. -/
def cypressPassedMsg : String := "✅ Cypress tests passed successfully!"

/-- Line 230: printed on a non-zero return code. -/
def cypressFailedMsg : String := "❌ Cypress tests failed!"

/-- Line 236: printed when `process.wait` raises `TimeoutExpired`. -/
def cypressTimedOutMsg : String := "⏰ Cypress run timed out after 5 minutes"

/-- Line 239: printed when spawning raises `FileNotFoundError`. -/
def cypressNotFoundMsg : String :=
  "❌ Cypress not found. Please install with: npm install -g cypress"

/-- How the attempt to run the Cypress child process ended. -/
inductive RunEvent where
| exited (returncode : Int)
| timedOut
| runnerMissing
| unexpectedError (e : String)
deriving DecidableEq

/-- What `save_test_code` reports for one run attempt: the primary message
printed, whether `process.kill()` ran, and the final full-log
`analyze_error` verdict when one is produced. -/
structure RunReport where
  message : String
  killedProcess : Bool
  finalAnalysis : Option String
deriving DecidableEq

/--
The outcome dispatch of `save_test_code` (lines 227-244): return code zero
reports success; non-zero reports failure plus a full-log `analyze_error`
pass; `TimeoutExpired` reports the timeout message and kills the process;
`FileNotFoundError` reports the missing-tooling message; any other
exception reports it together with an `analyze_error` of its text.
-/
def save_test_code_report (full_output : String) : RunEvent → RunReport
  | .exited returncode =>
    if returncode = 0 then
      { message := cypressPassedMsg, killedProcess := false, finalAnalysis := none }
    else
      { message := cypressFailedMsg, killedProcess := false,
        finalAnalysis := some (analyze_error (some full_output)) }
  | .timedOut =>
    { message := cypressTimedOutMsg, killedProcess := true, finalAnalysis := none }
  | .runnerMissing =>
    { message := cypressNotFoundMsg, killedProcess := false, finalAnalysis := none }
  | .unexpectedError e =>
    { message := "❌ Unexpected error running Cypress: " ++ e,
      killedProcess := false, finalAnalysis := some (analyze_error (some e)) }

/-- A concrete nested rich-text document with three literal text nodes,
used to exercise the extraction lemmas on a closed input. -/
def sampleAdfDoc : AdfDoc :=
  { typ := some "doc", text := none,
    content := some (.cons
      (.obj (some "paragraph") none (some (.cons
        (.obj (some "text") (some "Hello") none)
        (.cons (.obj (some "text") (some "world") none) .nil))))
      (.cons (.obj (some "paragraph") none (some (.cons
        (.obj (some "text") (some "!") none) .nil))) .nil)) }

/-- A concrete document whose extraction flattens to the empty string: a
single empty paragraph with no text nodes. -/
def emptyAdfDoc : AdfDoc :=
  { typ := some "doc", text := none,
    content := some (.cons (.obj (some "paragraph") none (some .nil)) .nil) }

/-!
Helper lemmas shared by the claim theorems.
-/

/-- The accumulator-passing walk appends exactly the document-order text
fragments after the incoming accumulator. -/
theorem extract_text_eq : ∀ (node : AdfNode) (text_parts : List String),
    extract_text node text_parts = text_parts ++ textFragments node
| .obj typ text none, text_parts => by
  by_cases h : typ = some "text" <;> simp [extract_text, textFragments, h]
| .obj typ text (some children), text_parts => by
  by_cases h : typ = some "text"
  · simp [extract_text, textFragments, h]
  · simp [extract_text, textFragments, h, extract_text_eq children]
| .nil, text_parts => by simp [extract_text, textFragments]
| .cons c cs, text_parts => by
  simp [extract_text, textFragments, extract_text_eq c, extract_text_eq cs]
| .scalar, text_parts => by simp [extract_text, textFragments]

/-- In a well-formed tree, the walk produces exactly one fragment per
literal text node. -/
theorem length_textFragments : ∀ node : AdfNode, wfAdf node = true →
    (textFragments node).length = countTextNodes node
| .obj typ text none, _ => by
  by_cases ht : typ = some "text" <;> simp [textFragments, countTextNodes, ht]
| .obj typ text (some children), h => by
  have h2 : ((typ != some "text") && wfAdf children) = true := by
    simpa [wfAdf] using h
  rw [Bool.and_eq_true] at h2
  have ht : ¬ typ = some "text" := by simpa using h2.1
  simp [textFragments, countTextNodes, ht, length_textFragments children h2.2]
| .nil, _ => by simp [textFragments, countTextNodes]
| .cons c cs, h => by
  have h2 : (wfAdf c && wfAdf cs) = true := by simpa [wfAdf] using h
  rw [Bool.and_eq_true] at h2
  simp [textFragments, countTextNodes,
    length_textFragments c h2.1, length_textFragments cs h2.2]
| .scalar, _ => by simp [textFragments, countTextNodes]

/-- The unknown-category message is never the empty string. -/
theorem unknownMsg_ne_empty (t : String) : unknownMsg t ≠ "" := by
  intro h
  have hlen := congrArg String.length h
  rw [unknownMsg, String.length_append, String.length_append,
    String.length_empty] at hlen
  have h1 : 0 < unknownPrefix.length := by decide
  omega

/-- The unknown-category message is never the no-output message. -/
theorem unknownMsg_ne_noOutput (t : String) : noOutputMsg ≠ unknownMsg t := by
  intro h
  have hlen := congrArg String.length h
  rw [unknownMsg, String.length_append, String.length_append] at hlen
  have h1 : noOutputMsg.length < unknownPrefix.length := by decide
  omega

/-!
Claim theorems.
-/

/-- C1, counterexample: the input "timeout not found" contains both
"timeout" and "not found" (case-insensitively), yet `analyze_error`
resolves it to the timeout category, not the element-not-found category,
because the element-not-found branch additionally requires "element" or
"selector" in the text. -/
theorem analyze_error_timeout_not_found_counterexample :
    strContains (pyLower "timeout not found") "timeout" = true ∧
    strContains (pyLower "timeout not found") "not found" = true ∧
    analyze_error (some "timeout not found") = timeoutMsg ∧
    timeoutMsg ≠ elementNotFoundMsg :=
  ⟨by decide, by decide, by decide, by decide⟩

/-- C1, amended: for every input text that (case-insensitively) contains
"not found" together with "element" or "selector" — in particular any such
text that also contains "timeout" — and does not contain the
cypress-verification keywords, `analyze_error` resolves to the
element-not-found category: it is the earlier category in the fixed
precedence order, matching is case-insensitive substring search, and the
first matching category wins. -/
theorem analyze_error_element_not_found_precedence (t : String)
    (hnf : strContains (pyLower t) "not found" = true)
    (hes : strContains (pyLower t) "element" = true ∨
           strContains (pyLower t) "selector" = true)
    (hv1 : strContains (pyLower t) "cypress could not verify" = false)
    (hv2 : strContains (pyLower t) "cypress verification" = false) :
    analyze_error (some t) = elementNotFoundMsg := by
  have ht : ¬ t = "" := by
    intro h
    subst h
    simp [strContains, pyLower] at hnf
  simp only [analyze_error, if_neg ht]
  rcases hes with h | h <;>
    simp [hnf, h, hv1, hv2]

/-- C1, witness: concrete evaluation of the amended precedence claim on an
input containing "Timeout", "not found" and "element". -/
theorem analyze_error_element_not_found_precedence_witness :
    analyze_error (some "Timeout: element not found") = elementNotFoundMsg :=
  analyze_error_element_not_found_precedence "Timeout: element not found"
    (by decide) (Or.inl (by decide)) (by decide) (by decide)

/-- C2: on every well-formed rich-text document, `extract_text_from_adf`
returns exactly the document-order text-node fragments joined by single
spaces, one fragment per literal text node, regardless of nesting depth. -/
theorem extract_text_from_adf_fragments (d : AdfDoc) (hwf : d.wf = true) :
    extract_text_from_adf d = String.intercalate " " (textFragments d.toNode) ∧
    (textFragments d.toNode).length = countTextNodes d.toNode := by
  constructor
  · rw [extract_text_from_adf, extract_text_eq]
    simp
  · exact length_textFragments d.toNode hwf

/-- C2, witness: the sample document with three text nodes in two nested
paragraphs flattens to the three fragments joined by single spaces. -/
theorem extract_text_from_adf_fragments_witness :
    sampleAdfDoc.wf = true ∧
    extract_text_from_adf sampleAdfDoc = "Hello world !" ∧
    countTextNodes sampleAdfDoc.toNode = 3 ∧
    extract_text_from_adf sampleAdfDoc =
      String.intercalate " " (textFragments sampleAdfDoc.toNode) ∧
    (textFragments sampleAdfDoc.toNode).length = countTextNodes sampleAdfDoc.toNode := by
  refine ⟨by decide, by decide, by decide, ?_, ?_⟩
  · exact (extract_text_from_adf_fragments sampleAdfDoc (by decide)).1
  · exact (extract_text_from_adf_fragments sampleAdfDoc (by decide)).2

/-- C3: empty or absent classifier input always yields the no-output
category; the no-output message is never the unknown-category message,
whatever excerpt the latter embeds. -/
theorem analyze_error_empty_no_output :
    analyze_error none = noOutputMsg ∧
    analyze_error (some "") = noOutputMsg ∧
    ∀ t : String, noOutputMsg ≠ unknownMsg t :=
  ⟨rfl, rfl, fun t => unknownMsg_ne_noOutput t⟩

/-- C3, witness: concrete instances of the no-output claim. -/
theorem analyze_error_empty_no_output_witness :
    analyze_error (some "") = noOutputMsg ∧
    noOutputMsg ≠ unknownMsg "some unrecognized log" :=
  ⟨analyze_error_empty_no_output.2.1,
   analyze_error_empty_no_output.2.2 "some unrecognized log"⟩

/-- C4: a non-empty input matching none of the eight keyword categories
yields the unknown category, which embeds the first 200 characters of the
original (unlowered) input. -/
theorem analyze_error_unknown_excerpt (t : String) (hne : t ≠ "")
    (hnm : matchesAnyCategory t = false) :
    analyze_error (some t) = unknownPrefix ++ pySlice t 200 ++ "..." ∧
    (pySlice t 200).length ≤ 200 := by
  constructor
  · simp only [matchesAnyCategory, Bool.or_eq_false_iff] at hnm
    simp only [analyze_error, if_neg hne, unknownMsg]
    obtain ⟨⟨⟨⟨⟨⟨⟨⟨h1a, h1b⟩, h2⟩, ⟨h3a, h3b⟩⟩, ⟨h4a, h4b⟩⟩, ⟨h5a, h5b⟩⟩, ⟨h6a, h6b⟩⟩, h7⟩, h8a, h8b⟩ := hnm
    simp [h1a, h1b, h2, h3a, h3b, h4a, h4b, h5a, h5b, h6a, h6b, h7, h8a, h8b]
  · rw [pySlice, String.length_mk]
    exact t.data.length_take_le 200

/-- C4, witness: a concrete unrecognized input is classified as unknown
with its full text as excerpt. -/
theorem analyze_error_unknown_excerpt_witness :
    "spurious gibberish output" ≠ "" ∧
    matchesAnyCategory "spurious gibberish output" = false ∧
    analyze_error (some "spurious gibberish output") =
      unknownPrefix ++ pySlice "spurious gibberish output" 200 ++ "..." ∧
    (pySlice "spurious gibberish output" 200).length ≤ 200 :=
  ⟨by decide, by decide,
   (analyze_error_unknown_excerpt "spurious gibberish output" (by decide) (by decide)).1,
   (analyze_error_unknown_excerpt "spurious gibberish output" (by decide) (by decide)).2⟩

/-- C5: every transport-level fetch failure is absorbed by the fetcher:
the requirement becomes a non-empty diagnostic string containing the
underlying error text, and the updated state is returned so the pipeline
continues. -/
theorem fetch_error_diagnostic (e : String) (state : QAState) :
    (fetch_jira_requirements (.error e) state).requirements ≠ "" ∧
    (∃ pre, (fetch_jira_requirements (.error e) state).requirements = pre ++ e) ∧
    fetch_jira_requirements (.error e) state =
      { state with requirements := "Error fetching requirements: " ++ e } := by
  refine ⟨?_, ⟨"Error fetching requirements: ", rfl⟩, rfl⟩
  intro h
  have hlen := congrArg String.length h
  have hshow : (fetch_jira_requirements (.error e) state).requirements =
      "Error fetching requirements: " ++ e := rfl
  rw [hshow, String.length_append, String.length_empty] at hlen
  have hpos : 0 < ("Error fetching requirements: " : String).length := by decide
  omega

/-- C5, witness: a concrete fetch failure produces the diagnostic
requirement and leaves the rest of the state intact. -/
theorem fetch_error_diagnostic_witness :
    (fetch_jira_requirements (.error "Max retries exceeded") {}).requirements ≠ "" ∧
    (∃ pre, (fetch_jira_requirements (.error "Max retries exceeded") {}).requirements =
      pre ++ "Max retries exceeded") ∧
    fetch_jira_requirements (.error "Max retries exceeded") {} =
      { ({} : QAState) with
        requirements := "Error fetching requirements: " ++ "Max retries exceeded" } :=
  fetch_error_diagnostic "Max retries exceeded" {}

/-- C6: every model-call failure is absorbed by the generation stage: the
artifact becomes a non-empty comment string that starts with the comment
marker and contains the stringified error, and the updated state is
returned. -/
theorem generate_error_fallback (e : String) (state : QAState) :
    (∃ rest, (generate_cypress_tests (.error e) state).test_code = "//" ++ rest) ∧
    (generate_cypress_tests (.error e) state).test_code ≠ "" ∧
    (∃ pre, (generate_cypress_tests (.error e) state).test_code = pre ++ e) ∧
    generate_cypress_tests (.error e) state =
      { state with test_code := "// Error generating tests: " ++ e } := by
  refine ⟨⟨" Error generating tests: " ++ e, ?_⟩, ?_,
    ⟨"// Error generating tests: ", rfl⟩, rfl⟩
  · show "// Error generating tests: " ++ e = "//" ++ (" Error generating tests: " ++ e)
    rw [← String.append_assoc]
    exact congrArg (fun s => s ++ e) (by decide)
  · intro h
    have hlen := congrArg String.length h
    have hshow : (generate_cypress_tests (.error e) state).test_code =
        "// Error generating tests: " ++ e := rfl
    rw [hshow, String.length_append, String.length_empty] at hlen
    have hpos : 0 < ("// Error generating tests: " : String).length := by decide
    omega

/-- C6, witness: a concrete generation failure produces the comment
fallback artifact. -/
theorem generate_error_fallback_witness :
    (∃ rest, (generate_cypress_tests (.error "Rate limit reached") {}).test_code =
      "//" ++ rest) ∧
    (generate_cypress_tests (.error "Rate limit reached") {}).test_code ≠ "" ∧
    (∃ pre, (generate_cypress_tests (.error "Rate limit reached") {}).test_code =
      pre ++ "Rate limit reached") ∧
    generate_cypress_tests (.error "Rate limit reached") {} =
      { ({} : QAState) with
        test_code := "// Error generating tests: " ++ "Rate limit reached" } :=
  generate_error_fallback "Rate limit reached" {}

/-- Python-falsiness of a fetched description: absent, the empty string,
or a rich-text document that flattens to the empty string. -/
def descriptionIsEmpty : DescriptionField → Bool
| .absent => true
| .str s => s == ""
| .adf d => extract_text_from_adf d == ""

/-- C7: on a successful fetch whose description field is absent or empty
(including a rich-text document flattening to the empty string), the
requirement falls back to the issue's one-line summary field. -/
theorem fetch_empty_description_summary_fallback (issue : JiraIssue)
    (state : QAState) (h : descriptionIsEmpty issue.description = true) :
    (fetch_jira_requirements (.ok issue) state).requirements = issue.summary := by
  obtain ⟨desc, summary⟩ := issue
  cases desc with
  | absent => rfl
  | str s =>
    have hs : s = "" := by simpa [descriptionIsEmpty] using h
    simp [fetch_jira_requirements, hs]
  | adf d =>
    have hd : extract_text_from_adf d = "" := by simpa [descriptionIsEmpty] using h
    simp [fetch_jira_requirements, hd]

/-- C7, witness: a document holding one empty paragraph flattens to the
empty string, so the requirement becomes the summary. -/
theorem fetch_empty_description_summary_fallback_witness :
    descriptionIsEmpty (.adf emptyAdfDoc) = true ∧
    (fetch_jira_requirements
      (.ok ⟨.adf emptyAdfDoc, "Login page summary"⟩) {}).requirements =
      "Login page summary" :=
  ⟨by decide,
   fetch_empty_description_summary_fallback
     ⟨.adf emptyAdfDoc, "Login page summary"⟩ {} (by decide)⟩

/-- C8: a `TimeoutExpired` from the five-minute (300-second) bounded wait
is reported with the distinct timed-out message and kills the child
process, and a missing runner executable is reported with the distinct
tooling-missing message; neither coincides with the test-failure or the
success outcome. -/
theorem save_outcome_dispatch (full_output : String) :
    save_test_code_report full_output .timedOut =
      { message := cypressTimedOutMsg, killedProcess := true, finalAnalysis := none } ∧
    cypressTimedOutMsg ≠ cypressFailedMsg ∧
    cypressTimedOutMsg ≠ cypressPassedMsg ∧
    save_test_code_report full_output .runnerMissing =
      { message := cypressNotFoundMsg, killedProcess := false, finalAnalysis := none } ∧
    cypressNotFoundMsg ≠ cypressFailedMsg ∧
    cypressNotFoundMsg ≠ cypressPassedMsg ∧
    cypressNotFoundMsg ≠ cypressTimedOutMsg ∧
    cypressWaitTimeoutSeconds = 300 :=
  ⟨rfl, by decide, by decide, rfl, by decide, by decide, by decide, rfl⟩

/-- C8, witness: the timed-out outcome on a concrete captured log. -/
theorem save_outcome_dispatch_witness :
    save_test_code_report "interrupted cypress log" .timedOut =
      { message := cypressTimedOutMsg, killedProcess := true, finalAnalysis := none } :=
  (save_outcome_dispatch "interrupted cypress log").1

/-- C9: each pipeline stage writes only its own key of the run state: the
fetcher never changes `test_code` and the generator never changes
`requirements`. -/
theorem pipeline_stage_frame :
    (∀ (response : Except String JiraIssue) (state : QAState),
      (fetch_jira_requirements response state).test_code = state.test_code) ∧
    (∀ (llmResponse : Except String String) (state : QAState),
      (generate_cypress_tests llmResponse state).requirements = state.requirements) := by
  constructor
  · intro response state
    cases response with
    | ok issue => cases h : issue.description <;> simp [fetch_jira_requirements, h]
    | error e => rfl
  · intro llmResponse state
    cases llmResponse <;> rfl

/-- C9, witness: concrete frame instances for both stages. -/
theorem pipeline_stage_frame_witness :
    (fetch_jira_requirements (.error "boom")
      { requirements := "old req", test_code := "old code" }).test_code = "old code" ∧
    (generate_cypress_tests (.ok "describe()")
      { requirements := "old req", test_code := "old code" }).requirements = "old req" :=
  ⟨pipeline_stage_frame.1 (.error "boom")
     { requirements := "old req", test_code := "old code" },
   pipeline_stage_frame.2 (.ok "describe()")
     { requirements := "old req", test_code := "old code" }⟩

/-- C10: the classifier returns a non-empty advisory string on every
input, absent and empty input included. -/
theorem analyze_error_nonempty (error_text : Option String) :
    analyze_error error_text ≠ "" := by
  cases error_text with
  | none => decide
  | some t =>
    by_cases ht : t = ""
    · subst ht
      decide
    · simp only [analyze_error, if_neg ht]
      repeat' split
      all_goals first
      | decide
      | exact unknownMsg_ne_empty t

/-- C10, witness: a concrete unmatched input still yields a non-empty
advisory string. -/
theorem analyze_error_nonempty_witness :
    analyze_error (some "qqq") ≠ "" :=
  analyze_error_nonempty (some "qqq")
